import Mathlib

/-!
Verification of the spotipy fork's authentication/token-lifecycle subsystem
and request dispatcher, as a shallow embedding in Lean.

The embedding follows the Python source in `spotipy/`:
* `spotipy/client.py` — `_get_id`, `_get_uri`, `Spotify._internal_call`
* `spotipy/auth.py` — `request_token`, `is_token_expired`,
  `ClientCredentials`, `AuthorizationCode`
* `spotipy/params_encoder.py` — `encode_params`
* `spotipy/exceptions.py` — the error taxonomy

Machine state (the mutable attributes of a provider object) is passed
explicitly; network I/O is modelled by passing the response the remote
endpoint would produce as an argument, so a function consumes exactly one
response per request it sends; Python exceptions are modelled with `Except`.
-/

namespace Spotipy

/-- Python exceptions raised by the code under study (`spotipy/exceptions.py`
plus the built-in exceptions the code can raise). -/
inductive PyErr where
  | valueError (message : String)
  | typeError
  | keyError
  | attributeError
  | jsonDecodeError
  | authorizationError (status : Nat) (message : String)
  | spotifyRequestError (status : Nat) (message : String)
  | deviceNotFoundError (message : String)
  | rateLimitReached (retryAfter : Option String)
  | httpError (status : Nat)
  deriving Repr, DecidableEq

/-! ## Python `str.split(sep, maxsplit)` on a single-character separator -/

/-- Python's `s.split(sep, maxsplit)` over a character list: split at the
first `maxsplit` occurrences of `sep`, keeping empty fields. -/
def pySplitChars (sep : Char) : Nat → List Char → List (List Char)
  | _, [] => [[]]
  | 0, cs => [cs]
  | n + 1, c :: cs =>
    if c = sep then
      [] :: pySplitChars sep n cs
    else
      match pySplitChars sep (n + 1) cs with
      | [] => [[c]]
      | h :: t => (c :: h) :: t

/-- `s.split(sep, maxsplit)` for a one-character separator `sep`. -/
def pySplit (sep : Char) (maxsplit : Nat) (s : String) : List String :=
  (pySplitChars sep maxsplit s.toList).map fun cs => String.mk cs

/-! ## `spotipy/client.py` — identifier normalization -/

/-- `_get_id` from `spotipy/client.py` (lines 49–61): split on `":"` with
`maxsplit=2`; on three fields check the middle one against the expected
type and return the last; otherwise the same with `"/"`; otherwise the
reference is already a bare id. -/
def getId (spotify_type spotify_id : String) : Except PyErr String :=
  let fields := pySplit ':' 2 spotify_id
  if fields.length = 3 then
    if spotify_type ≠ fields.getD 1 "" then
      .error (.valueError ("expected id of type " ++ spotify_type ++ " but found type "
        ++ fields.getD 1 "" ++ " " ++ spotify_id))
    else
      .ok (fields.getD 2 "")
  else
    let fields2 := pySplit '/' 2 spotify_id
    if fields2.length = 3 then
      if spotify_type ≠ fields2.getD 1 "" then
        .error (.valueError ("expected id of type " ++ spotify_type ++ " but found type "
          ++ fields2.getD 1 "" ++ " " ++ spotify_id))
      else
        .ok (fields2.getD 2 "")
    else
      .ok spotify_id

/-- `_get_uri` from `spotipy/client.py` (lines 64–65). -/
def getUri (spotify_type spotify_id : String) : Except PyErr String :=
  (getId spotify_type spotify_id).map fun i => "spotify:" ++ spotify_type ++ ":" ++ i

/-! ## `spotipy/auth.py` — token endpoint and providers -/

/-- Python truthiness of an optional string attribute: `None` and `""` are
falsy. -/
def pyTruthyStr : Option String → Bool
  | none => false
  | some s => s ≠ ""

/-- The JSON object a token-endpoint response parses to; the fields are the
keys the code reads, `none` meaning the key is absent. -/
structure TokenEndpointJson where
  access_token : Option String
  expires_in : Option Int
  refresh_token : Option String
  error : Option String
  error_description : Option String
  deriving Repr, DecidableEq

/-- The raw response of `POST https://accounts.spotify.com/api/token`:
`json = none` models an empty body (`response.content` falsy). -/
structure TokenEndpointResponse where
  status_code : Nat
  json : Option TokenEndpointJson
  deriving Repr, DecidableEq

/-- `request_token` from `spotipy/auth.py` (lines 15–27), with the network
send replaced by the response it would receive. On a non-200 status it
raises `AuthorizationError(status, message)`, the message formatted from
the body's `error`/`error_description` fields when the body is non-empty;
on 200 it returns the parsed body (an empty body makes `response.json()`
raise). -/
def request_token (resp : TokenEndpointResponse) : Except PyErr TokenEndpointJson :=
  if resp.status_code ≠ 200 then
    match resp.json with
    | none => .error (.authorizationError resp.status_code "")
    | some e =>
      match e.error with
      | none => .error .keyError
      | some err =>
        match e.error_description with
        | none => .error .keyError
        | some desc =>
          .error (.authorizationError resp.status_code (err ++ ". description: " ++ desc))
  else
    match resp.json with
    | none => .error .jsonDecodeError
    | some j => .ok j

/-- `is_token_expired` from `spotipy/auth.py` (lines 30–32), with
`int(time.time())` passed explicitly as `now`. -/
def is_token_expired (expires_at : Int) (now : Int) : Bool :=
  expires_at - now < 30

/-- The mutable attributes of a `ClientCredentials` provider. -/
structure CCState where
  client_id : String
  client_secret : String
  access_token : Option String
  access_token_expires : Option Int
  deriving Repr, DecidableEq

/-- `ClientCredentials.__init__` (lines 70–87): the token cache starts
empty. -/
def CCState.init (client_id client_secret : String) : CCState :=
  { client_id, client_secret, access_token := none, access_token_expires := none }

/-- `ClientCredentials._request_access_token` (lines 99–106): `now` is read,
the exchange runs, and only then are `_access_token` and
`_access_token_expires = now + expires_in` assigned, in that order. A
raised exception carries the attributes as they stand at the raise point
(`Except.error (e, state-at-raise)`), so an exception from `request_token`
leaves every attribute as it was before the call. -/
def CCState.requestAccessToken (st : CCState) (now : Int) (resp : TokenEndpointResponse) :
    Except (PyErr × CCState) CCState :=
  match request_token resp with
  | .error e => .error (e, st)
  | .ok token_info =>
    match token_info.access_token with
    | none => .error (.keyError, st)
    | some tok =>
      let st1 := { st with access_token := some tok }
      match token_info.expires_in with
      | none => .error (.keyError, st1)
      | some ei => .ok { st1 with access_token_expires := some (now + ei) }

/-- `ClientCredentials.make_authorization_headers` (lines 89–93). Returns
the new state, the value of the `Authorization` header, and whether a
refresh (network round trip) was performed. The short-circuit of
`not self._access_token or is_token_expired(...)` is kept: the expiry test
runs only when a token is cached, and on a cached token with
`_access_token_expires` still `None` the subtraction inside
`is_token_expired` would raise `TypeError`. -/
def CCState.makeAuthorizationHeaders (st : CCState) (now : Int)
    (resp : TokenEndpointResponse) : Except (PyErr × CCState) (CCState × String × Bool) :=
  if ¬ pyTruthyStr st.access_token then
    match st.requestAccessToken now resp with
    | .error es => .error es
    | .ok st' => .ok (st', "Bearer " ++ st'.access_token.getD "", true)
  else
    match st.access_token_expires with
    | none => .error (.typeError, st)
    | some e =>
      if is_token_expired e now then
        match st.requestAccessToken now resp with
        | .error es => .error es
        | .ok st' => .ok (st', "Bearer " ++ st'.access_token.getD "", true)
      else
        .ok (st, "Bearer " ++ st.access_token.getD "", false)

/-- The mutable attributes of an `AuthorizationCode` provider.
`session_assigned` records whether `self.session` exists: `__init__` only
assigns it when no `requests_session` was supplied. -/
structure ACState where
  client_id : String
  client_secret : String
  refresh_token : String
  access_token : Option String
  access_token_expires_at : Option Int
  persist_file_path : Option String
  session_assigned : Bool
  deriving Repr, DecidableEq

/-- `AuthorizationCode.__init__` (lines 114–146): supplying exactly one of
`access_token`/`access_token_expires_at` is a `ValueError`; `self.session`
is assigned only when `requests_session` is falsy (`session_supplied =
false`). -/
def ACState.init (client_id client_secret refresh_token : String)
    (access_token : Option String) (access_token_expires_at : Option Int)
    (persist_file_path : Option String) (session_supplied : Bool) :
    Except PyErr ACState :=
  if access_token.isSome ≠ access_token_expires_at.isSome then
    .error (.valueError "when supplying access_token, access_token_expires_at must be supplied as well")
  else
    .ok { client_id, client_secret, refresh_token, access_token,
          access_token_expires_at, persist_file_path,
          session_assigned := !session_supplied }

/-- `AuthorizationCode._request_access_token` (lines 180–187): evaluating
the call argument `self.session` raises `AttributeError` — before any
network traffic — when the attribute was never assigned; otherwise the
refresh-token exchange runs and, on success, `_access_token` and then
`_access_token_expires_at = expires_in + now` are assigned.
`self._refresh_token` is never written. (The `save()` call writes a file
and does not touch these attributes.) A raised exception carries the
attributes as they stand at the raise point. -/
def ACState.requestAccessToken (st : ACState) (now : Int) (resp : TokenEndpointResponse) :
    Except (PyErr × ACState) ACState :=
  if ¬ st.session_assigned then
    .error (.attributeError, st)
  else
    match request_token resp with
    | .error e => .error (e, st)
    | .ok token_info =>
      match token_info.access_token with
      | none => .error (.keyError, st)
      | some tok =>
        let st1 := { st with access_token := some tok }
        match token_info.expires_in with
        | none => .error (.keyError, st1)
        | some ei => .ok { st1 with access_token_expires_at := some (ei + now) }

/-- `AuthorizationCode.make_authorization_headers` (lines 174–178), shaped
like the `ClientCredentials` variant. -/
def ACState.makeAuthorizationHeaders (st : ACState) (now : Int)
    (resp : TokenEndpointResponse) : Except (PyErr × ACState) (ACState × String × Bool) :=
  if ¬ pyTruthyStr st.access_token then
    match st.requestAccessToken now resp with
    | .error es => .error es
    | .ok st' => .ok (st', "Bearer " ++ st'.access_token.getD "", true)
  else
    match st.access_token_expires_at with
    | none => .error (.typeError, st)
    | some e =>
      if is_token_expired e now then
        match st.requestAccessToken now resp with
        | .error es => .error es
        | .ok st' => .ok (st', "Bearer " ++ st'.access_token.getD "", true)
      else
        .ok (st, "Bearer " ++ st.access_token.getD "", false)

/-! ## `spotipy/params_encoder.py` — `encode_params` -/

/-- The Python values a query mapping can hold: `None`, a string, an `int`,
or a non-string iterable (a list). -/
inductive PyVal where
  | none
  | str (s : String)
  | int (n : Int)
  | list (xs : List PyVal)
  deriving Repr

/-- `v is None`. -/
def PyVal.isNone : PyVal → Bool
  | PyVal.none => true
  | _ => false

/-- `",".join(...)` over already-filtered elements: every element must be a
string, otherwise `join` raises `TypeError`. -/
def pyJoinStrs : List PyVal → Except PyErr (List String)
  | [] => .ok []
  | PyVal.str s :: rest => (pyJoinStrs rest).map fun l => s :: l
  | _ :: _ => .error .typeError

/-- `encode_params` from `spotipy/params_encoder.py`: drop `None` values,
comma-join a list after dropping its `None` elements and keep the joined
string only when non-empty, and pass any other value through unchanged.
The input and output dicts are modelled as association lists in insertion
order. -/
def encode_params : List (String × PyVal) → Except PyErr (List (String × PyVal))
  | [] => .ok []
  | (k, vs) :: rest =>
    match vs with
    | PyVal.none => encode_params rest
    | PyVal.list xs =>
      match pyJoinStrs (xs.filter fun v => !v.isNone) with
      | .error e => .error e
      | .ok parts =>
        let joined := String.intercalate "," parts
        match encode_params rest with
        | .error e => .error e
        | .ok tail =>
          if joined ≠ "" then .ok ((k, PyVal.str joined) :: tail) else .ok tail
    | v => (encode_params rest).map fun tail => (k, v) :: tail

/-! ## `spotipy/client.py` — `Spotify._internal_call` -/

/-- The nested error object `response.json()["error"]` of a 4xx resource-API
response: `message` is read by indexing (`KeyError` when absent), `reason`
by `.get` (`None` when absent). -/
structure ErrorJson where
  message : Option String
  reason : Option String
  deriving Repr, DecidableEq

/-- The parsed body of a resource-API response; only the `error` key is
interpreted by the dispatcher. -/
structure ApiJson where
  error : Option ErrorJson
  deriving Repr, DecidableEq

/-- A resource-API response: `retry_after` is `headers.get("Retry-After")`,
`body = none` models empty `response.content`. -/
structure ApiResponse where
  status_code : Nat
  retry_after : Option String
  body : Option ApiJson
  deriving Repr, DecidableEq

/-- The `if params: params = params_encoder.encode_params(params)` step of
`_internal_call`: a truthy (non-`None`, non-empty) mapping is replaced by
its encoding; `None` and the empty dict are kept as they are. -/
def effectiveParams (params : Option (List (String × PyVal))) :
    Except PyErr (Option (List (String × PyVal))) :=
  match params with
  | Option.none => .ok Option.none
  | some [] => .ok (some [])
  | some p => (encode_params p).map some

/-- `"device_id" in params` where `params` may still be Python `None`:
membership on `None` raises `TypeError`. -/
def deviceIdInParams : Option (List (String × PyVal)) → Except PyErr Bool
  | Option.none => .error .typeError
  | some p => .ok (p.any fun kv => kv.1 = "device_id")

/-- `Spotify._internal_call` from `spotipy/client.py` (lines 131–159), with
the single `self._session.request(...)` send replaced by the response it
receives (`resp`). Auth-header construction and URL prefixing do not affect
response classification and are omitted. The classification follows the
source: 429 raises `RateLimitReached(Retry-After)`; a 4xx with a body
parses the error object and raises `DeviceNotFoundError` when
`status == 404 and "device_id" in params or reason == "NO_ACTIVE_DEVICE"`
(Python precedence `(A and B) or C`, left-to-right with short-circuit, so
the membership test on a `None` params runs only when status is 404);
other 4xx bodies raise `SpotifyRequestError(status, message)`; a bodyless
4xx raises `SpotifyRequestError(status, "")`; `raise_for_status` turns 5xx
into an `HTTPError`; 204 and an empty body return `None`. -/
def internalCall (params : Option (List (String × PyVal))) (resp : ApiResponse) :
    Except PyErr (Option ApiJson) :=
  match effectiveParams params with
  | .error e => .error e
  | .ok params =>
    if resp.status_code = 429 then
      .error (.rateLimitReached resp.retry_after)
    else if 400 ≤ resp.status_code ∧ resp.status_code < 500 then
      match resp.body with
      | some j =>
        match j.error with
        | Option.none => .error .keyError
        | some err =>
          match
            (if resp.status_code = 404 then
              match deviceIdInParams params with
              | .error e => .error e
              | .ok hasDevice =>
                if hasDevice then .ok true
                else .ok (err.reason == some "NO_ACTIVE_DEVICE")
            else .ok (err.reason == some "NO_ACTIVE_DEVICE") :
              Except PyErr Bool) with
          | .error e => .error e
          | .ok cond =>
            match err.message with
            | Option.none => .error .keyError
            | some msg =>
              if cond then .error (.deviceNotFoundError msg)
              else .error (.spotifyRequestError resp.status_code msg)
      | Option.none =>
        .error (.spotifyRequestError resp.status_code "")
    else if 500 ≤ resp.status_code ∧ resp.status_code < 600 then
      .error (.httpError resp.status_code)
    else if resp.status_code = 204 then
      .ok Option.none
    else
      .ok resp.body

/-! ## The params-encoding contract, as amended -/

/-- The string a `PyVal` holds, when it is one. -/
def PyVal.asStr : PyVal → Option String
  | PyVal.str s => some s
  | _ => Option.none

/-- A sequence element within the encoding contract's domain: `None` or a
nonempty string. -/
def seqElemOk : PyVal → Bool
  | PyVal.none => true
  | PyVal.str s => s ≠ ""
  | _ => false

/-- A query value within the encoding contract's domain: any scalar, or a
sequence of `None`s and nonempty strings. -/
def wfParamVal : PyVal → Bool
  | PyVal.list xs => xs.all seqElemOk
  | _ => true

/-- One entry of the encoding contract as the amended claim states it: a
`None` value is omitted; a sequence is joined with `","` after dropping
its `None` elements and omitted when empty after the dropping; a scalar
passes through unchanged. -/
def encodeSpecEntry : String × PyVal → Option (String × PyVal)
  | (_, PyVal.none) => Option.none
  | (k, PyVal.list xs) =>
    match xs.filterMap PyVal.asStr with
    | [] => Option.none
    | s :: ss => some (k, PyVal.str (String.intercalate "," (s :: ss)))
  | (k, v) => some (k, v)

/-! ## Concrete states and responses used in closed checks -/

/-- A client-credentials state holding a still-valid cached token. -/
def ccCached : CCState :=
  { client_id := "cid", client_secret := "sec", access_token := some "TOK",
    access_token_expires := some 1000 }

/-- An authorization-code state holding a still-valid cached token. -/
def acCached : ACState :=
  { client_id := "cid", client_secret := "sec", refresh_token := "OLD",
    access_token := some "TOK", access_token_expires_at := some 1000,
    persist_file_path := Option.none, session_assigned := true }

/-- An authorization-code state built with a caller-supplied session:
`self.session` was never assigned. -/
def acNoSession : ACState :=
  { client_id := "cid", client_secret := "sec", refresh_token := "OLD",
    access_token := Option.none, access_token_expires_at := Option.none,
    persist_file_path := Option.none, session_assigned := false }

/-- An authorization-code state with no cached access token. -/
def acEmpty : ACState :=
  { client_id := "cid", client_secret := "sec", refresh_token := "OLD",
    access_token := Option.none, access_token_expires_at := Option.none,
    persist_file_path := Option.none, session_assigned := true }

/-- A standard OAuth error body. -/
def tokenJson400 : TokenEndpointJson :=
  { access_token := Option.none, expires_in := Option.none,
    refresh_token := Option.none, error := some "invalid_grant",
    error_description := some "Refresh token revoked" }

/-- A 400 token-endpoint response with a standard OAuth error body. -/
def tokenResp400 : TokenEndpointResponse :=
  { status_code := 400, json := some tokenJson400 }

/-- A 200 token-exchange body that carries a new refresh token. -/
def tokenJson200New : TokenEndpointJson :=
  { access_token := some "TOK2", expires_in := some 3600,
    refresh_token := some "NEWREFRESH", error := Option.none,
    error_description := Option.none }

/-- A 200 token-endpoint response that carries a new refresh token. -/
def tokenResp200New : TokenEndpointResponse :=
  { status_code := 200, json := some tokenJson200New }

/-- A 500 token-endpoint response with an empty body. -/
def tokenResp500 : TokenEndpointResponse :=
  { status_code := 500, json := Option.none }

/-- A 4xx error object carrying only a message. -/
def errJsonMsg : ErrorJson :=
  { message := some "m", reason := Option.none }

/-- A 404 resource-API response whose body carries `errJsonMsg`. -/
def apiResp404 : ApiResponse :=
  { status_code := 404, retry_after := Option.none, body := some { error := some errJsonMsg } }

/-- A 429 resource-API response with `Retry-After: 2`. -/
def apiResp429 : ApiResponse :=
  { status_code := 429, retry_after := some "2", body := Option.none }

/-- The spec's worked example for the params encoder:
`{"a": None, "b": ["x", None, "y"], "c": 5}`. -/
def c5Input : List (String × PyVal) :=
  [("a", PyVal.none), ("b", PyVal.list [PyVal.str "x", PyVal.none, PyVal.str "y"]),
   ("c", PyVal.int 5)]

/-! ## Lemmas about `pySplit` -/

theorem pySplitChars_zero (sep : Char) (cs : List Char) :
    pySplitChars sep 0 cs = [cs] := by
  cases cs <;> rfl

theorem pySplitChars_of_not_mem (sep : Char) (n : Nat) (cs : List Char)
    (h : sep ∉ cs) : pySplitChars sep n cs = [cs] := by
  induction cs generalizing n with
  | nil => cases n <;> rfl
  | cons c cs ih =>
    cases n with
    | zero => rfl
    | succ n =>
      have hc : ¬ c = sep := fun hcs => h (hcs ▸ List.mem_cons_self c cs)
      have hrest : sep ∉ cs := fun hm => h (List.mem_cons_of_mem c hm)
      simp only [pySplitChars, if_neg hc, ih (n + 1) hrest]

theorem pySplitChars_append_sep (sep : Char) (n : Nat) (l1 rest : List Char)
    (h : sep ∉ l1) :
    pySplitChars sep (n + 1) (l1 ++ sep :: rest) = l1 :: pySplitChars sep n rest := by
  induction l1 with
  | nil => simp [pySplitChars]
  | cons c l1 ih =>
    have hc : ¬ c = sep := fun hcs => h (hcs ▸ List.mem_cons_self c l1)
    have hrest : sep ∉ l1 := fun hm => h (List.mem_cons_of_mem c hm)
    simp only [List.cons_append, pySplitChars, if_neg hc, List.append_eq, ih hrest]

/-- Splitting `"spotify:track:<id>"` on `":"` with `maxsplit=2` always gives
the three fields: the two splits are used up before the id is reached. -/
theorem pySplit_uri (id : String) :
    pySplit ':' 2 ("spotify:track:" ++ id) = ["spotify", "track", id] := by
  have hdata : ("spotify:track:" ++ id).data
      = "spotify".data ++ ':' :: ("track".data ++ ':' :: id.data) := by
    rw [String.data_append]
    rfl
  unfold pySplit
  rw [show ("spotify:track:" ++ id).toList = ("spotify:track:" ++ id).data from rfl, hdata]
  rw [pySplitChars_append_sep ':' 1 _ _ (by decide)]
  rw [pySplitChars_append_sep ':' 0 _ _ (by decide)]
  rw [pySplitChars_zero]
  rfl

theorem pySplit_bare (sep : Char) (m : Nat) (id : String) (h : sep ∉ id.data) :
    pySplit sep m id = [id] := by
  unfold pySplit
  rw [show id.toList = id.data from rfl, pySplitChars_of_not_mem sep m id.data h]
  rfl

theorem getId_uri (id : String) :
    getId "track" ("spotify:track:" ++ id) = .ok id := by
  unfold getId
  rw [pySplit_uri]
  rfl

theorem getId_bare (t id : String) (h1 : (':' : Char) ∉ id.data)
    (h2 : ('/' : Char) ∉ id.data) : getId t id = .ok id := by
  unfold getId
  rw [pySplit_bare ':' 2 id h1, pySplit_bare '/' 2 id h2]
  rfl

/-! ## The claims -/

/-- C1: the claim says `_get_id("track", "https://host/track/ABC123")`
returns `"ABC123"`. The code instead raises `ValueError`: splitting the URL
on `"/"` with `maxsplit=2` yields `['https:', '', 'host/track/ABC123']`,
so the segment compared against the expected type is the empty string
between the scheme's two slashes. This theorem evaluates the code at the
failing input. -/
theorem getId_url_reference_raises :
    getId "track" "https://host/track/ABC123"
      = .error (.valueError "expected id of type track but found type  https://host/track/ABC123") :=
  rfl

/-- C8: for a well-formed URI `spotify:track:<id>` (the id free of `":"`
and `"/"`), the round trip `_get_uri("track", _get_id("track", uri))`
returns the original URI. -/
theorem uri_roundtrip (id : String) (h1 : (':' : Char) ∉ id.data)
    (h2 : ('/' : Char) ∉ id.data) :
    (getId "track" ("spotify:track:" ++ id)).bind (fun bare => getUri "track" bare)
      = .ok ("spotify:track:" ++ id) := by
  rw [getId_uri]
  show getUri "track" id = _
  unfold getUri
  rw [getId_bare "track" id h1 h2]
  rfl

theorem uri_roundtrip_witness :
    ((':' : Char) ∉ "ABC123".data ∧ ('/' : Char) ∉ "ABC123".data)
    ∧ (getId "track" "spotify:track:ABC123").bind (fun bare => getUri "track" bare)
      = .ok "spotify:track:ABC123" :=
  ⟨⟨by decide, by decide⟩, uri_roundtrip "ABC123" (by decide) (by decide)⟩

/-- C3: with a cached token satisfying `expires_at - now ≥ 30` (the fixed
skew of `is_token_expired`), `make_authorization_headers` of both the
`ClientCredentials` and the `AuthorizationCode` provider performs no
token-endpoint request (the network flag is `false` and the result does
not depend on `resp`), leaves the state unchanged and returns the cached
token in a `Bearer` header; and a token counts as expired exactly when
`expires_at - now < 30`. -/
theorem fresh_token_no_refresh (st : CCState) (ast : ACState) (now e : Int) (t : String)
    (resp : TokenEndpointResponse)
    (h1 : st.access_token = some t) (h2 : t ≠ "") (h3 : st.access_token_expires = some e)
    (h4 : 30 ≤ e - now)
    (g1 : ast.access_token = some t) (g3 : ast.access_token_expires_at = some e) :
    st.makeAuthorizationHeaders now resp = .ok (st, "Bearer " ++ t, false)
    ∧ ast.makeAuthorizationHeaders now resp = .ok (ast, "Bearer " ++ t, false)
    ∧ (∀ e' n' : Int, is_token_expired e' n' = true ↔ e' - n' < 30) := by
  refine ⟨?_, ?_, ?_⟩
  · unfold CCState.makeAuthorizationHeaders
    rw [h1, h3]
    simp [pyTruthyStr, h2, is_token_expired]
    omega
  · unfold ACState.makeAuthorizationHeaders
    rw [g1, g3]
    simp [pyTruthyStr, h2, is_token_expired]
    omega
  · intro e' n'
    simp [is_token_expired]

theorem fresh_token_no_refresh_witness :
    ccCached.makeAuthorizationHeaders 100 tokenResp500 = .ok (ccCached, "Bearer TOK", false)
    ∧ acCached.makeAuthorizationHeaders 100 tokenResp500 = .ok (acCached, "Bearer TOK", false) :=
  have h := fresh_token_no_refresh ccCached acCached 100 1000 "TOK" tokenResp500
    rfl (by decide) rfl (by decide) rfl rfl
  ⟨h.1, h.2.1⟩

/-- C4: a non-200 token-endpoint response makes `request_token` raise
`AuthorizationError` with the HTTP status and the formatted error
description (empty for an empty body), and the refresh of either provider
re-raises that error with the cached state (`access_token`, expiry,
`refresh_token`) exactly as it was before the call. -/
theorem token_exchange_failure_preserves_state (resp : TokenEndpointResponse)
    (hs : resp.status_code ≠ 200) :
    (resp.json = Option.none →
      request_token resp = .error (.authorizationError resp.status_code ""))
    ∧ (∀ e err desc, resp.json = some e → e.error = some err → e.error_description = some desc →
        request_token resp
          = .error (.authorizationError resp.status_code (err ++ ". description: " ++ desc)))
    ∧ (∀ (st : CCState) (now : Int) (e : PyErr), request_token resp = .error e →
        st.requestAccessToken now resp = .error (e, st))
    ∧ (∀ (ast : ACState) (now : Int) (e : PyErr), ast.session_assigned = true →
        request_token resp = .error e →
        ast.requestAccessToken now resp = .error (e, ast)) := by
  refine ⟨?_, ?_, ?_, ?_⟩
  · intro hj
    simp [request_token, hs, hj]
  · intro e err desc hj he hd
    simp [request_token, hs, hj, he, hd]
  · intro st now e he
    simp [CCState.requestAccessToken, he]
  · intro ast now e hsess he
    simp [ACState.requestAccessToken, hsess, he]

theorem token_exchange_failure_witness :
    request_token tokenResp400
      = .error (.authorizationError 400 "invalid_grant. description: Refresh token revoked")
    ∧ CCState.requestAccessToken ccCached 100 tokenResp400
      = .error (.authorizationError 400 "invalid_grant. description: Refresh token revoked", ccCached)
    ∧ ACState.requestAccessToken acCached 100 tokenResp400
      = .error (.authorizationError 400 "invalid_grant. description: Refresh token revoked", acCached) := by
  have h := token_exchange_failure_preserves_state tokenResp400 (by decide)
  have h1 := h.2.1 _ "invalid_grant" "Refresh token revoked" rfl rfl rfl
  exact ⟨h1, h.2.2.1 ccCached 100 _ h1, h.2.2.2 acCached 100 _ rfl h1⟩

/-- C2 counterexample: the claim says a successful refresh replaces the
stored `refresh_token` when the token-endpoint response includes a new
one. At this concrete input the response carries `refresh_token =
"NEWREFRESH"`, the refresh succeeds, and the stored refresh token is still
`"OLD"`: `AuthorizationCode._request_access_token` never reads the
response's `refresh_token` field. -/
theorem refresh_ignores_new_refresh_token_cex :
    tokenResp200New.json.map TokenEndpointJson.refresh_token = some (some "NEWREFRESH")
    ∧ ACState.requestAccessToken acEmpty 5 tokenResp200New
      = .ok { acEmpty with access_token := some "TOK2", access_token_expires_at := some 3605 }
    ∧ ({ acEmpty with access_token := some "TOK2",
                      access_token_expires_at := some 3605 } : ACState).refresh_token = "OLD"
    ∧ ("OLD" : String) ≠ "NEWREFRESH" :=
  ⟨rfl, rfl, rfl, by decide⟩

/-- C2 as amended: a successful refresh updates `access_token` and
`expires_at = expires_in + now`, and always retains the stored
`refresh_token`, whether or not the response includes a new one. -/
theorem refresh_updates_token_retains_refresh (st : ACState) (now : Int)
    (resp : TokenEndpointResponse) (tok : TokenEndpointJson) (a : String) (n : Int)
    (hsess : st.session_assigned = true) (h200 : resp.status_code = 200)
    (hj : resp.json = some tok) (ha : tok.access_token = some a) (hn : tok.expires_in = some n) :
    st.requestAccessToken now resp
      = .ok { st with access_token := some a, access_token_expires_at := some (n + now) }
    ∧ (∀ st', st.requestAccessToken now resp = .ok st' → st'.refresh_token = st.refresh_token) := by
  have hmain : st.requestAccessToken now resp
      = .ok { st with access_token := some a, access_token_expires_at := some (n + now) } := by
    simp [ACState.requestAccessToken, request_token, hsess, h200, hj, ha, hn]
  refine ⟨hmain, ?_⟩
  intro st' h
  rw [hmain] at h
  cases h
  rfl

theorem refresh_updates_token_retains_refresh_witness :
    ACState.requestAccessToken acEmpty 5 tokenResp200New
      = .ok { acEmpty with access_token := some "TOK2", access_token_expires_at := some 3605 } :=
  (refresh_updates_token_retains_refresh acEmpty 5 tokenResp200New
    tokenJson200New "TOK2" 3600 rfl rfl rfl rfl rfl).1

/-- C9: an `AuthorizationCode` provider constructed with a caller-supplied
`requests_session` never has `self.session` assigned, so with the token
absent or expired the first refresh attempt — reached through
`make_authorization_headers` — raises `AttributeError` (with the state
untouched) instead of performing the token exchange. -/
theorem supplied_session_attribute_error (cid cs rt : String)
    (at_ : Option String) (ea : Option Int) (pf : Option String)
    (st : ACState) (now : Int) (resp : TokenEndpointResponse)
    (hinit : ACState.init cid cs rt at_ ea pf true = .ok st)
    (habsent : pyTruthyStr st.access_token = false
      ∨ ∃ e, st.access_token_expires_at = some e ∧ is_token_expired e now = true) :
    st.session_assigned = false
    ∧ st.requestAccessToken now resp = .error (.attributeError, st)
    ∧ st.makeAuthorizationHeaders now resp = .error (.attributeError, st) := by
  have hsess : st.session_assigned = false := by
    unfold ACState.init at hinit
    split at hinit
    · cases hinit
    · cases hinit
      rfl
  have hreq : st.requestAccessToken now resp = .error (.attributeError, st) := by
    simp [ACState.requestAccessToken, hsess]
  refine ⟨hsess, hreq, ?_⟩
  unfold ACState.makeAuthorizationHeaders
  rcases habsent with hfalsy | ⟨e, he, hexp⟩
  · rw [hfalsy]
    simp [hreq]
  · cases htruthy : pyTruthyStr st.access_token with
    | false => simp [hreq]
    | true => simp [he, hexp, hreq]

theorem supplied_session_attribute_error_witness :
    ACState.init "cid" "sec" "OLD" Option.none Option.none Option.none true = .ok acNoSession
    ∧ acNoSession.session_assigned = false
    ∧ acNoSession.makeAuthorizationHeaders 5 tokenResp200New
      = .error (.attributeError, acNoSession) := by
  have h := supplied_session_attribute_error "cid" "sec" "OLD" Option.none Option.none
    Option.none acNoSession 5 tokenResp200New rfl (Or.inl rfl)
  exact ⟨rfl, h.1, h.2.2⟩

/-! ## Lemmas for the params encoder -/

theorem isNone_none : PyVal.isNone PyVal.none = true := rfl

theorem isNone_str (s : String) : (PyVal.str s).isNone = false := rfl

theorem asStr_none : PyVal.asStr PyVal.none = Option.none := rfl

theorem asStr_str (s : String) : (PyVal.str s).asStr = some s := rfl

theorem intercalate_go_length (ss : List String) (acc : String) :
    acc.length ≤ (String.intercalate.go acc "," ss).length := by
  induction ss generalizing acc with
  | nil => exact Nat.le_refl _
  | cons a as ih =>
    have h1 : acc.length ≤ (acc ++ "," ++ a).length := by
      rw [String.length_append, String.length_append]
      omega
    exact Nat.le_trans h1 (ih (acc ++ "," ++ a))

theorem intercalate_ne_empty (s : String) (ss : List String) (h : s ≠ "") :
    String.intercalate "," (s :: ss) ≠ "" := by
  intro hcontra
  have hlen : s.length ≤ (String.intercalate "," (s :: ss)).length :=
    intercalate_go_length ss s
  rw [hcontra, String.length_empty] at hlen
  have hpos : 0 < s.length := by
    rw [show s.length = s.data.length from rfl]
    cases hs : s.data with
    | nil => exact absurd (String.ext hs) h
    | cons c cs => simp
  omega

/-- Under the contract's domain, the filtered comma-join of the code equals
the clean string extraction. -/
theorem pyJoinStrs_of_wf (xs : List PyVal) (h : xs.all seqElemOk = true) :
    pyJoinStrs (xs.filter fun v => !v.isNone) = .ok (xs.filterMap PyVal.asStr) := by
  induction xs with
  | nil => rfl
  | cons v vs ih =>
    rw [List.all_cons, Bool.and_eq_true] at h
    obtain ⟨hv, hvs⟩ := h
    cases v with
    | none => simp [List.filter_cons, List.filterMap_cons, isNone_none, asStr_none, ih hvs]
    | str s =>
      simp [List.filter_cons, List.filterMap_cons, isNone_str, asStr_str, pyJoinStrs,
        ih hvs, Except.map]
    | int n => simp [seqElemOk] at hv
    | list l => simp [seqElemOk] at hv

theorem filterMap_asStr_ne_empty (xs : List PyVal) (h : xs.all seqElemOk = true) :
    ∀ s ∈ xs.filterMap PyVal.asStr, s ≠ "" := by
  induction xs with
  | nil => intro s hs; cases hs
  | cons v vs ih =>
    rw [List.all_cons, Bool.and_eq_true] at h
    obtain ⟨hv, hvs⟩ := h
    intro s hs
    cases v with
    | none => exact ih hvs s (by simpa [List.filterMap_cons, asStr_none] using hs)
    | str t =>
      rw [List.filterMap_cons, asStr_str] at hs
      rcases List.mem_cons.mp hs with hst | hs
      · subst hst
        simpa [seqElemOk] using hv
      · exact ih hvs s hs
    | int n => simp [seqElemOk] at hv
    | list l => simp [seqElemOk] at hv

/-- C5 counterexample: the claim says the encoder stringifies a scalar, so
that its worked example yields `{"b": "x,y", "c": "5"}`. On that exact
input the code yields `{"b": "x,y", "c": 5}`: the scalar `5` is passed
through as an `int`, not stringified, and the two dicts are not equal. -/
theorem encode_params_scalar_unchanged_cex :
    encode_params c5Input = .ok [("b", PyVal.str "x,y"), ("c", PyVal.int 5)]
    ∧ ([("b", PyVal.str "x,y"), ("c", PyVal.int 5)] : List (String × PyVal))
      ≠ [("b", PyVal.str "x,y"), ("c", PyVal.str "5")] := by
  constructor
  · rfl
  · simp

/-- C5 as amended: over mappings whose sequence values hold only `None`s
and nonempty strings, `encode_params` omits a key whose value is `None` or
whose sequence is empty after dropping `None` elements, joins a sequence
with `","` after dropping `None` elements, and passes a scalar value
through unchanged — the entry-wise contract `encodeSpecEntry`. -/
theorem encode_params_spec (data : List (String × PyVal))
    (h : data.all (fun kv => wfParamVal kv.2) = true) :
    encode_params data = .ok (data.filterMap encodeSpecEntry) := by
  induction data with
  | nil => rfl
  | cons kv rest ih =>
    obtain ⟨k, v⟩ := kv
    rw [List.all_cons, Bool.and_eq_true] at h
    obtain ⟨hv, hrest⟩ := h
    cases v with
    | none => simpa [encode_params, encodeSpecEntry, List.filterMap_cons] using ih hrest
    | str s =>
      simp [encode_params, encodeSpecEntry, List.filterMap_cons, ih hrest, Except.map]
    | int n =>
      simp [encode_params, encodeSpecEntry, List.filterMap_cons, ih hrest, Except.map]
    | list xs =>
      have hxs : xs.all seqElemOk = true := by simpa [wfParamVal] using hv
      cases hfm : xs.filterMap PyVal.asStr with
      | nil =>
        simp [encode_params, encodeSpecEntry, List.filterMap_cons, pyJoinStrs_of_wf xs hxs,
          hfm, String.intercalate, ih hrest]
      | cons s ss =>
        have hne : String.intercalate "," (s :: ss) ≠ "" :=
          intercalate_ne_empty s ss
            (filterMap_asStr_ne_empty xs hxs s (hfm ▸ List.mem_cons_self s ss))
        simp [encode_params, encodeSpecEntry, List.filterMap_cons, pyJoinStrs_of_wf xs hxs,
          hfm, hne, ih hrest]

theorem encode_params_spec_witness :
    c5Input.all (fun kv => wfParamVal kv.2) = true
    ∧ encode_params c5Input = .ok (c5Input.filterMap encodeSpecEntry)
    ∧ c5Input.filterMap encodeSpecEntry = [("b", PyVal.str "x,y"), ("c", PyVal.int 5)] :=
  ⟨rfl, encode_params_spec c5Input rfl, rfl⟩

/-- C7: a 429 response makes the dispatcher raise `RateLimitReached`
carrying the `Retry-After` header value. The embedding consumes exactly
one response per call, so no retry happens on this path. -/
theorem rate_limit_429 (params q : Option (List (String × PyVal))) (resp : ApiResponse)
    (hq : effectiveParams params = .ok q) (h429 : resp.status_code = 429) :
    internalCall params resp = .error (.rateLimitReached resp.retry_after) := by
  simp [internalCall, hq, h429]

theorem rate_limit_429_witness :
    internalCall Option.none apiResp429 = .error (.rateLimitReached (some "2")) :=
  rate_limit_429 Option.none Option.none apiResp429 rfl rfl

/-- C6: for a request carrying a query mapping, a 4xx (non-429) response
with a body raises `DeviceNotFoundError(message)` exactly when the status
is 404 and the encoded query contains the key `"device_id"`, or the error
object's `reason` is `"NO_ACTIVE_DEVICE"`; otherwise it raises
`SpotifyRequestError(status, message)`; and with an empty body it raises
`SpotifyRequestError(status, "")`. -/
theorem dispatcher_4xx_classification (p q : List (String × PyVal)) (resp : ApiResponse)
    (hq : effectiveParams (some p) = .ok (some q))
    (h4 : 400 ≤ resp.status_code) (h5 : resp.status_code < 500)
    (h429 : resp.status_code ≠ 429) :
    (∀ j err m, resp.body = some j → j.error = some err → err.message = some m →
      internalCall (some p) resp =
        if (resp.status_code = 404 ∧ (q.any fun kv => kv.1 = "device_id") = true)
            ∨ err.reason = some "NO_ACTIVE_DEVICE"
        then .error (.deviceNotFoundError m)
        else .error (.spotifyRequestError resp.status_code m))
    ∧ (resp.body = Option.none →
        internalCall (some p) resp = .error (.spotifyRequestError resp.status_code "")) := by
  constructor
  · intro j err m hb he hm
    by_cases h404 : resp.status_code = 404
    · by_cases hdev : (q.any fun kv => kv.1 = "device_id") = true
      · simp [internalCall, hq, h429, h4, h5, hb, he, hm, deviceIdInParams, h404, hdev]
      · by_cases hreason : err.reason = some "NO_ACTIVE_DEVICE"
        · simp [internalCall, hq, h429, h4, h5, hb, he, hm, deviceIdInParams, h404, hdev,
            hreason]
        · simp [internalCall, hq, h429, h4, h5, hb, he, hm, deviceIdInParams, h404, hdev,
            hreason]
    · by_cases hreason : err.reason = some "NO_ACTIVE_DEVICE"
      · simp [internalCall, hq, h429, h4, h5, hb, he, hm, h404, hreason]
      · simp [internalCall, hq, h429, h4, h5, hb, he, hm, h404, hreason]
  · intro hb
    simp [internalCall, hq, h429, h4, h5, hb]

theorem dispatcher_4xx_classification_witness :
    internalCall (some [("device_id", PyVal.str "foo")]) apiResp404
      = .error (.deviceNotFoundError "m") := by
  have h := (dispatcher_4xx_classification [("device_id", PyVal.str "foo")]
    [("device_id", PyVal.str "foo")] apiResp404 rfl (by decide) (by decide) (by decide)).1
    { error := some errJsonMsg } errJsonMsg "m" rfl rfl rfl
  rw [h]
  simp [apiResp404, errJsonMsg]

/-- C10 counterexample: the claim says a dispatch with params `None` *or
empty* hitting a 404 with a body raises `TypeError`. With the empty
mapping (which, like `None`, is falsy and thus never replaced by an
encoded dict) the membership test succeeds on the empty dict and the
normal `SpotifyRequestError` classification proceeds — no `TypeError`. -/
theorem empty_params_no_type_error_cex :
    internalCall (some []) apiResp404 = .error (.spotifyRequestError 404 "m")
    ∧ internalCall (some []) apiResp404 ≠ .error .typeError := by
  constructor
  · rfl
  · rw [show internalCall (some []) apiResp404
        = .error (.spotifyRequestError 404 "m") from rfl]
    simp

/-- C10 as amended: only a dispatch with no params mapping at all (Python
`None`, the argument's default) whose response is a 404 with a non-empty
body makes `"device_id" in params` raise `TypeError` — an untyped fault
outside the documented error taxonomy — instead of a `SpotifyRequestError`
or `DeviceNotFoundError`. -/
theorem none_params_404_type_error (resp : ApiResponse) (j : ApiJson) (err : ErrorJson)
    (h404 : resp.status_code = 404) (hb : resp.body = some j) (he : j.error = some err) :
    internalCall Option.none resp = .error .typeError := by
  simp [internalCall, effectiveParams, h404, hb, he, deviceIdInParams]

theorem none_params_404_type_error_witness :
    internalCall Option.none apiResp404 = .error .typeError :=
  none_params_404_type_error apiResp404 { error := some errJsonMsg } errJsonMsg rfl rfl rfl

end Spotipy
